import Mathlib

/-!
Shallow embedding of the playlist-model logic of hnlplayer (src/hnlplayer/hnl.py)
and verification of the spec's claims about it.

The embedding models Python lists as Lean lists and Python slice / insert /
del-slice operations with their clamping semantics. Qt signal emissions
(layoutAboutToBeChanged, beginMoveRows, ...) carry no list state and are not
modelled; only the mutations of the underlying Python list are.
-/

namespace Hnl

/-- Python slice-bound normalization for a list of length len: a negative bound
counts from the end (clamped to 0), a non-negative bound is clamped to len. -/
def pyBound (len : Nat) (i : Int) : Nat :=
  if i < 0 then ((len : Int) + i).toNat else min i.toNat len

/-- Python slice l[i:j] for non-negative bounds i, j (as used in moveRows,
where all slice bounds are row indices and counts, hence non-negative):
l[i:j] keeps the elements with indices in [i, j), clamped to the list. -/
def pySlice (l : List α) (i j : Nat) : List α := (l.take j).drop i

/-- Python slice deletion, del l[i:j]: removes the elements whose indices lie
in [i, j) after normalizing both bounds; removes nothing when j ≤ i. -/
def pyDelSlice (l : List α) (i j : Int) : List α :=
  let a := pyBound l.length i
  let b := pyBound l.length j
  l.take a ++ l.drop (max a b)

/-- Python list.insert(i, x) for a non-negative index i: inserts x before
position i, appending when i exceeds the length (Python clamps). -/
def pyInsert (l : List α) (i : Nat) (x : α) : List α :=
  l.take i ++ x :: l.drop i

/-- PlaylistModel.insertTrack(row, track): a negative row is replaced by the
current length (append), then the track is inserted by Python list.insert. -/
def insertTrack (tracks : List α) (row : Int) (track : α) : List α :=
  let r : Nat := if row < 0 then tracks.length else row.toNat
  pyInsert tracks r track

/-- PlaylistModel.removeRows(row, count): the list mutation is
del self._tracks[row : row + count - 1]. -/
def removeRows (tracks : List α) (row count : Int) : List α :=
  pyDelSlice tracks row (row + count - 1)

/-- PlaylistModel.moveRows(sourceRow, count, destinationChild): the list is
reassembled from four slices; the branch is on sourceRow > destinationChild.
All arguments are row indices and counts, hence non-negative. -/
def moveRows (tracks : List α) (sourceRow count destinationChild : Nat) :
    List α :=
  if sourceRow > destinationChild then
    pySlice tracks 0 destinationChild
      ++ pySlice tracks destinationChild sourceRow
      ++ pySlice tracks sourceRow (sourceRow + count)
      ++ tracks.drop (sourceRow + count)
  else
    pySlice tracks 0 sourceRow
      ++ pySlice tracks sourceRow (sourceRow + count)
      ++ pySlice tracks (sourceRow + count) destinationChild
      ++ tracks.drop destinationChild

/-- PlaylistModel.moveRow(sourceRow, destinationChild): pops the element at
sourceRow and reinserts it (at destinationChild when moving left, at
destinationChild - 1 when moving right); none models the IndexError that
Python's list.pop raises when sourceRow is out of range. -/
def moveRow (tracks : List α) (sourceRow destinationChild : Nat) :
    Option (List α) :=
  if sourceRow > destinationChild then
    match tracks.get? sourceRow with
    | some x => some (pyInsert (tracks.eraseIdx sourceRow) destinationChild x)
    | none => none
  else if sourceRow < destinationChild then
    match tracks.get? sourceRow with
    | some x =>
        some (pyInsert (tracks.eraseIdx sourceRow) (destinationChild - 1) x)
    | none => none
  else
    some tracks

/-- The loop body of is_contiguous: last is bound once before the loop and
never reassigned, so every element is compared against the same value. -/
def is_contiguousLoop (last : Nat) : List Nat → Bool
  | [] => true
  | i :: rest =>
      if i ≠ last + 1 ∧ i ≠ last then false else is_contiguousLoop last rest

/-- is_contiguous(seq): last = seq[0] (an IndexError, modelled as none, when
seq is empty), then the loop over all of seq with the never-updated last. -/
def is_contiguous (seq : List Nat) : Option Bool :=
  match seq with
  | [] => none
  | first :: rest => some (is_contiguousLoop first (first :: rest))

/-- The list-reordering fragment of PlaylistTableView.dropEvent: moving is the
sorted list of selected rows (the hasSelection / if moving guards return
early when it is empty, before is_contiguous is ever consulted); dest is the
resolved drop row. Only the playlist-list effect is modelled. -/
def dropEventReorder (tracks : List α) (moving : List Nat) (dest : Nat) :
    List α :=
  match moving with
  | [] => tracks
  | first :: rest =>
    if (is_contiguous (first :: rest)).getD false then
      if first + (first :: rest).length ≠ dest then
        if (first :: rest).length > 1 then
          moveRows tracks first (first :: rest).length dest
        else
          (moveRow tracks first dest).getD tracks
      else tracks
    else tracks

/-- A Column Definition: name, defaultWidth, the stored template _fmt and the
stored compiled formatter _tfc. The template and formatter types are
parameters because the template mini-language (tf) is an external
collaborator; compile : T → Option F abstracts tf.compile, with none
modelling a compile error being raised. -/
structure PlaylistColumn (T F : Type) where
  name : String
  defaultWidth : Int
  fmtField : T
  tfcField : F

/-- The fmt property setter of PlaylistColumn: first self._fmt = fmt, then
self._tfc = tf.compile(fmt). When compile raises, the exception propagates
(Except.error) and the observable state carries the already-updated _fmt with
the previous _tfc. -/
def fmtSet (compile : T → Option F) (col : PlaylistColumn T F) (fmt : T) :
    Except (PlaylistColumn T F) (PlaylistColumn T F) :=
  let colAssigned := { col with fmtField := fmt }
  match compile fmt with
  | some f => Except.ok { colAssigned with tfcField := f }
  | none => Except.error colAssigned

/-- The spec's in-sync invariant for a Column Definition: the stored compiled
formatter is the compilation of the stored template. -/
def inSync (compile : T → Option F) (col : PlaylistColumn T F) : Prop :=
  compile col.fmtField = some col.tfcField

/-- Errors observable from ColumnConfigurationLayout.onDeleteButtonClicked. -/
inductive DeleteError
  | invalidAction
  | indexError
deriving DecidableEq

/-- ColumnConfigurationLayout.onDeleteButtonClicked: raises InvalidActionError
when at most one column remains (before touching the column list); otherwise
deletes the current row when the current index is valid (none models an
invalid current index). An error carries the observable column list. -/
def onDeleteButtonClicked (columns : List C) (currentIndex : Option Nat) :
    Except (DeleteError × List C) (List C) :=
  if columns.length ≤ 1 then
    Except.error (DeleteError.invalidAction, columns)
  else
    match currentIndex with
    | some row =>
        if row < columns.length then Except.ok (columns.eraseIdx row)
        else Except.error (DeleteError.indexError, columns)
    | none => Except.ok columns

/-- A concrete external compiler used to exhibit a compile failure: it rejects
the template 0 and compiles every other template to itself. -/
def rejectZero : Nat → Option Nat :=
  fun t => if t = 0 then none else some t

/-- A concrete Column Definition that is in sync for rejectZero. -/
def sampleColumn : PlaylistColumn Nat Nat :=
  { name := "Title", defaultWidth := 180, fmtField := 1, tfcField := 1 }

/-- Helper: Python slice deletion whose (normalized) end bound reaches past the
end of the list just truncates the list at the start bound. -/
lemma pyDelSlice_end_ge {α : Type} (l : List α) (i j : Int)
    (hi0 : 0 ≤ i) (hi : i ≤ (l.length : Int)) (hj : (l.length : Int) ≤ j) :
    pyDelSlice l i j = l.take i.toNat := by
  have hj0 : 0 ≤ j := le_trans (by exact_mod_cast Nat.zero_le _) hj
  have hitn : i.toNat ≤ l.length := by omega
  have hjtn : l.length ≤ j.toNat := by omega
  unfold pyDelSlice pyBound
  simp only [if_neg (not_lt.mpr hi0), if_neg (not_lt.mpr hj0)]
  rw [min_eq_left hitn, min_eq_right hjtn, max_eq_right hitn,
    List.drop_length, List.append_nil]

/-- Helper: the length of a Python insert is always one more than the length
of the list it inserts into. -/
lemma pyInsert_length {α : Type} (l : List α) (i : Nat) (x : α) :
    (pyInsert l i x).length = l.length + 1 := by
  simp [pyInsert]
  omega

/-- C1: the claim states that moveRows relocates the run, with the two spec
scenarios on [A,B,C,D,E] (as [0,1,2,3,4]) producing [A,D,B,C,E] and
[D,E,A,B,C]. The code reassembles its four slices in an order that
reconstructs the original list, so both scenario calls leave the playlist
unchanged and neither claimed result is produced. -/
theorem moveRows_scenarios_leave_list_unchanged :
    moveRows [0, 1, 2, 3, 4] 1 2 4 = [0, 1, 2, 3, 4] ∧
    moveRows [0, 1, 2, 3, 4] 1 2 4 ≠ [0, 3, 1, 2, 4] ∧
    moveRows [0, 1, 2, 3, 4] 3 2 0 = [0, 1, 2, 3, 4] ∧
    moveRows [0, 1, 2, 3, 4] 3 2 0 ≠ [3, 4, 0, 1, 2] := by
  decide

/-- C2: the claim states that removeRows deletes exactly count records, so the
new length is the old length minus count. The code deletes the slice
[row, row + count - 1), i.e. count - 1 records: on a 5-element list,
removeRows(1, 2) leaves 4 elements, not 3. -/
theorem removeRows_deletes_count_minus_one :
    removeRows ([0, 1, 2, 3, 4] : List Nat) 1 2 = [0, 2, 3, 4] ∧
    (removeRows ([0, 1, 2, 3, 4] : List Nat) 1 2).length ≠ 5 - 2 := by
  decide

/-- C3: the claim states that is_contiguous accepts every sorted run whose
successive elements differ by 0 or 1, in particular [2,3,4]. The loop never
updates last, so it only accepts elements equal to seq[0] or seq[0] + 1 and
rejects [2,3,4]. -/
theorem is_contiguous_rejects_two_three_four :
    is_contiguous [2, 3, 4] = some false := by
  decide

/-- C4 counterexample: the claim states that removeRows raises an out-of-range
error and leaves the list unchanged whenever the range extends past the end.
On the 2-element list [0,1] the range (row 0, count 5) extends far past the
end, yet the Python slice deletion silently clamps and empties the list:
the list is changed and no error is raised (the model is total). -/
theorem removeRows_out_of_range_changes_list :
    removeRows ([0, 1] : List Nat) 0 5 = [] ∧
    removeRows ([0, 1] : List Nat) 0 5 ≠ [0, 1] := by
  decide

/-- C4 amended: removeRows never raises on a range extending past the end of
the list; the slice deletion silently clamps, truncating the list at row
(given the off-by-one, deleting the elements from row to the end), which is
the same result as deleting with the largest in-range count. -/
theorem removeRows_silently_clamps {α : Type} (l : List α) (row count : Int)
    (h0 : 0 ≤ row) (h1 : row ≤ (l.length : Int))
    (h2 : (l.length : Int) ≤ row + count - 1) :
    removeRows l row count = l.take row.toNat ∧
    removeRows l row count = removeRows l row ((l.length : Int) + 1 - row) := by
  have e1 := pyDelSlice_end_ge l row (row + count - 1) h0 h1 h2
  have e2 := pyDelSlice_end_ge l row (row + ((l.length : Int) + 1 - row) - 1)
    h0 h1 (by omega)
  constructor
  · exact e1
  · unfold removeRows
    rw [e1, e2]

theorem removeRows_silently_clamps_witness :
    removeRows ([0, 1] : List Nat) 1 5 = List.take (1 : Int).toNat [0, 1] ∧
    removeRows ([0, 1] : List Nat) 1 5 =
      removeRows [0, 1] 1 ((([0, 1] : List Nat).length : Int) + 1 - 1) :=
  removeRows_silently_clamps [0, 1] 1 5 (by decide) (by decide) (by decide)

/-- C5: the claim states that moveRows with destination equal to sourceStart
is a no-op. With sourceRow = 1, count = 2, destinationChild = 1 on a
5-element list, the else branch of moveRows duplicates the moved run,
returning a 7-element list instead of the unchanged list. -/
theorem moveRows_dest_eq_source_duplicates_run :
    moveRows [0, 1, 2, 3, 4] 1 2 1 = [0, 1, 2, 1, 2, 3, 4] ∧
    moveRows [0, 1, 2, 3, 4] 1 2 1 ≠ [0, 1, 2, 3, 4] := by
  decide

/-- C6: the claim states that moveRows always produces a permutation of the
original records. With sourceRow = 1, count = 2, destinationChild = 1 the
result duplicates the moved run (7 elements from a 5-element list), so it is
not a permutation of the original list. -/
theorem moveRows_not_a_permutation :
    ¬ List.Perm (moveRows [0, 1, 2, 3, 4] 1 2 1) [0, 1, 2, 3, 4] := by
  intro h
  exact absurd h.length_eq (by decide)

/-- C7 counterexample: the claim states that when the compiler rejects the
template, the in-sync invariant between the stored template and the stored
formatter still holds. Setting the rejected template 0 on a column that was
in sync raises (error) with the stored template already updated to 0 while
the stored formatter still holds the compilation of the previous template,
so the failure state is out of sync. -/
theorem fmtSet_failure_breaks_sync :
    fmtSet rejectZero sampleColumn 0 =
      Except.error { sampleColumn with fmtField := 0 } ∧
    ¬ inSync rejectZero { sampleColumn with fmtField := 0 } := by
  refine ⟨rfl, fun hsync => ?_⟩
  simp [inSync, rejectZero, sampleColumn] at hsync

/-- C7 amended: after a successful assignment the stored formatter is the
compilation of the stored template (the invariant holds), and a compile
failure propagates unrecovered; but in the failure case the stored template
is already updated while the stored formatter keeps its previous value, so
the failure state is exactly the old column with only the template field
replaced (out of sync whenever the new template compiles differently). -/
theorem fmtSet_sync_after_success {T F : Type} (compile : T → Option F)
    (col : PlaylistColumn T F) (t : T) :
    (∀ f, compile t = some f →
        fmtSet compile col t =
          Except.ok { col with fmtField := t, tfcField := f } ∧
        inSync compile { col with fmtField := t, tfcField := f }) ∧
    (compile t = none →
        fmtSet compile col t = Except.error { col with fmtField := t }) := by
  constructor
  · intro f hf
    constructor
    · unfold fmtSet
      rw [hf]
    · unfold inSync
      simpa using hf
  · intro hf
    unfold fmtSet
    rw [hf]

theorem fmtSet_sync_after_success_witness :
    (fmtSet rejectZero sampleColumn 2 =
        Except.ok { sampleColumn with fmtField := 2, tfcField := 2 } ∧
      inSync rejectZero { sampleColumn with fmtField := 2, tfcField := 2 }) ∧
    fmtSet rejectZero sampleColumn 0 =
      Except.error { sampleColumn with fmtField := 0 } :=
  ⟨(fmtSet_sync_after_success rejectZero sampleColumn 2).1 2 rfl,
    (fmtSet_sync_after_success rejectZero sampleColumn 0).2 rfl⟩

/-- C8: on a column set with exactly one Column Definition,
onDeleteButtonClicked raises InvalidActionError before touching the list,
whatever the current selection index is, and the observable column set is
unchanged. -/
theorem onDeleteButtonClicked_single_column {C : Type} (columns : List C)
    (h : columns.length = 1) (currentIndex : Option Nat) :
    onDeleteButtonClicked columns currentIndex =
      Except.error (DeleteError.invalidAction, columns) := by
  unfold onDeleteButtonClicked
  rw [if_pos (by omega)]

theorem onDeleteButtonClicked_single_column_witness :
    onDeleteButtonClicked [0] (some 0) =
      Except.error (DeleteError.invalidAction, [0]) :=
  onDeleteButtonClicked_single_column [0] rfl (some 0)

/-- C9: insertTrack is total over all integer rows, the length always grows by
exactly one, and a row strictly greater than the current length clamps to an
append at the end. -/
theorem insertTrack_totality {α : Type} (tracks : List α) (row : Int)
    (x : α) :
    (insertTrack tracks row x).length = tracks.length + 1 ∧
    ((tracks.length : Int) < row → insertTrack tracks row x = tracks ++ [x]) := by
  constructor
  · unfold insertTrack
    exact pyInsert_length tracks _ x
  · intro hrow
    have h0 : ¬ row < 0 := by omega
    have hlen : tracks.length ≤ row.toNat := by omega
    unfold insertTrack pyInsert
    rw [if_neg h0]
    show List.take row.toNat tracks ++ x :: List.drop row.toNat tracks
      = tracks ++ [x]
    rw [List.take_of_length_le hlen, List.drop_eq_nil_of_le hlen]

theorem insertTrack_totality_witness :
    (insertTrack [0] 5 1).length = ([0] : List Nat).length + 1 ∧
    insertTrack [0] 5 1 = [0] ++ [1] :=
  ⟨(insertTrack_totality [0] 5 1).1, (insertTrack_totality [0] 5 1).2 (by decide)⟩

/-- C10: is_contiguous has the precondition that its input is non-empty — it
reads seq[0] unconditionally, modelled as none (IndexError) on the empty
list, and returns a Boolean on every non-empty list — and the dropEvent
caller returns early on an empty selection, leaving the playlist untouched,
so is_contiguous is only ever consulted on a non-empty selection. -/
theorem is_contiguous_nonempty_precondition {α : Type} (tracks : List α)
    (dest : Nat) (seq : List Nat) (h : seq ≠ []) :
    is_contiguous ([] : List Nat) = none ∧
    (is_contiguous seq).isSome = true ∧
    dropEventReorder tracks ([] : List Nat) dest = tracks := by
  refine ⟨rfl, ?_, rfl⟩
  cases seq with
  | nil => exact absurd rfl h
  | cons a t => rfl

theorem is_contiguous_nonempty_precondition_witness :
    is_contiguous ([] : List Nat) = none ∧
    (is_contiguous [2]).isSome = true ∧
    dropEventReorder ([0] : List Nat) ([] : List Nat) 0 = [0] :=
  is_contiguous_nonempty_precondition [0] 0 [2] (by decide)

end Hnl
